import Mathlib

/-!
# Verification of the event-ticket sales backend

Shallow embedding, in Lean 4, of the order-lifecycle and notification logic
of the ticket-sales repository:

* `src/Desktop/github-export/src/mastra/tools/createOrderTool.ts`
  (`generateOrderCode`, `withTransaction`, `createOrderTool.execute`);
* the `manageOrderTool` file (`manageOrderTool.execute`);
* the server file holding the HTTP route handlers
  (`/api/create-order` validation and notification handling,
  `/api/create-ticket-order`, the Telegram refund callback,
  `generateAdminToken` / `isValidAdminToken`,
  `sendChannelNotification`, `sendOrderNotificationToAdmin`).

Modelling conventions:

* Every JavaScript / SQL number is modelled as `Rat` (JS numbers at the
  magnitudes this code handles behave as exact rationals; no claim here
  depends on floating-point rounding).
* SQL tables are lists of rows; a query without `ORDER BY` reading
  `rows[0]` is modelled as `List.find?` (first matching row).
* Every database-touching operation additionally returns the list of SQL
  commands it issued (`Sql`), so that transaction-wrapping and statement
  order are stated about real traces.
* Exceptions are not needed: on the modelled paths the source code either
  returns normally or catches every throw; injected send failures are
  passed as explicit `Bool` outcomes.
-/

/-! ## JS values and helpers -/

/-- A JavaScript value as it appears in a parsed JSON request body:
`undefined`/`null`, a number, or a string. -/
inductive JVal where
  | undef
  | num (q : Rat)
  | str (s : String)
deriving DecidableEq, Repr

/-- JS truthiness of a `JVal` (`undefined`, `0` and `""` are falsy). -/
def JVal.truthy : JVal → Bool
  | .undef => false
  | .num q => q != 0
  | .str s => s != ""

/-- JS `x || d` on an optional number: `undefined` and `0` fall back. -/
def jsOrNum (v : Option Rat) (d : Rat) : Rat :=
  match v with
  | none => d
  | some q => if q = 0 then d else q

/-- JS `x || y` on optional strings: `undefined` and `""` fall back. -/
def jsOrStr (v : Option String) (w : Option String) : Option String :=
  match v with
  | none => w
  | some s => if s = "" then w else some s

/-- Truncation toward zero (`Int.tdiv` rounds toward zero), the integer
`parseInt` extracts from the decimal rendering of a (plainly rendered) JS
number. -/
def jsTrunc (q : Rat) : Int :=
  q.num.tdiv (q.den : Int)

/-- The whitespace set of ECMAScript (WhiteSpace plus LineTerminator),
which both `String.prototype.trim` and `parseInt` skip: TAB, LF, VT, FF,
CR, SP, NBSP, Ogham space, the U+2000..U+200A space separators, LS, PS,
NNBSP, MMSP, ideographic space, and the BOM (U+FEFF). -/
def jsIsWhitespace (c : Char) : Bool :=
  let n := c.toNat
  n == 9 || n == 10 || n == 11 || n == 12 || n == 13 || n == 32 ||
  n == 160 || n == 5760 || (Nat.ble 8192 n && Nat.ble n 8202) ||
  n == 8232 || n == 8233 || n == 8239 || n == 8287 || n == 12288 ||
  n == 65279

/-- The value of a character as a digit of the given radix (`parseInt`
accepts `0-9`, `a-f`, `A-F`, capped by the radix), or `none`. -/
def digitVal (radix : Nat) (c : Char) : Option Nat :=
  let n := c.toNat
  let v : Option Nat :=
    if 48 ≤ n ∧ n ≤ 57 then some (n - 48)
    else if 97 ≤ n ∧ n ≤ 102 then some (n - 87)
    else if 65 ≤ n ∧ n ≤ 70 then some (n - 55)
    else none
  match v with
  | some d => if d < radix then some d else none
  | none => none

/-- The longest digit prefix in the given radix, as in `parseInt`:
`none` when no digit at all was read, otherwise the accumulated value,
ignoring whatever follows the digits. -/
def parseDigitsAcc (radix : Nat) : List Char → Nat → Bool → Option Nat
  | [], acc, seen => if seen then some acc else none
  | c :: cs, acc, seen =>
    match digitVal radix c with
    | some d => parseDigitsAcc radix cs (acc * radix + d) true
    | none => if seen then some acc else none

/-- The unsigned part of `parseInt` with no radix argument: a `0x`/`0X`
prefix switches to hexadecimal, otherwise the digits are decimal. -/
def parseIntMag : List Char → Option Nat
  | '0' :: 'x' :: cs => parseDigitsAcc 16 cs 0 false
  | '0' :: 'X' :: cs => parseDigitsAcc 16 cs 0 false
  | cs => parseDigitsAcc 10 cs 0 false

/-- `parseInt` on a character list after whitespace stripping: an optional
sign, then the (possibly `0x`-prefixed) digit run; `none` is `NaN`. -/
def parseIntChars : List Char → Option Int
  | '-' :: cs => (parseIntMag cs).map (fun n => -(n : Int))
  | '+' :: cs => (parseIntMag cs).map (fun n => (n : Int))
  | cs => (parseIntMag cs).map (fun n => (n : Int))

/-- JS `String.prototype.trim` (strip leading and trailing ECMAScript
whitespace), written over the character list so that it evaluates by
`decide`. -/
def jsTrim (s : String) : String :=
  String.mk (((s.toList.dropWhile jsIsWhitespace).reverse.dropWhile
    jsIsWhitespace).reverse)

/-- JS `String.prototype.length` counts UTF-16 code units: characters at
or beyond U+10000 count as a surrogate pair of two units. -/
def utf16Len (s : String) : Nat :=
  (s.toList.map (fun c => if c.toNat < 65536 then 1 else 2)).sum

/-- `⌊log₁₀ n⌋` by fuel recursion (so that it reduces in the kernel);
`natLog10 0 = 0`. -/
def natLog10Aux : Nat → Nat → Nat
  | 0, _ => 0
  | fuel + 1, n => if n < 10 then 0 else 1 + natLog10Aux fuel (n / 10)

/-- `⌊log₁₀ n⌋` (0 at 0). -/
def natLog10 (n : Nat) : Nat :=
  natLog10Aux n n

/-- The leading decimal digit of `|q|` (0 for 0): for `|q| ≥ 1` the most
significant digit of `⌊|q|⌋`, otherwise the first nonzero digit after the
point, found by shifting by enough powers of ten. -/
def leadingDigit (q : Rat) : Nat :=
  let n := q.num.natAbs
  if n = 0 then 0
  else if q.den ≤ n then
    let m := n / q.den
    m / 10 ^ natLog10 m
  else
    let m := n * 10 ^ (natLog10 q.den + 1) / q.den
    m / 10 ^ natLog10 m

/-- `|q|` on rationals, written with `if` so that it evaluates by
`decide`. -/
def ratAbs (q : Rat) : Rat :=
  if q < 0 then -q else q

/-- `10^21`, the magnitude from which JS renders a number in exponential
notation. -/
def ratTenPow21 : Rat :=
  mkRat (10 ^ 21) 1

/-- `10^(-6)`: below this magnitude (but above zero) JS also renders a
number in exponential notation. -/
def ratTenPowNeg6 : Rat :=
  mkRat 1 (10 ^ 6)

/-- `parseInt` applied to a JS number `q`: JS first renders `q` to its
decimal string.  For `10^(-6) ≤ |q| < 10^21` (and 0) the rendering is
plain positional decimal and `parseInt` reads the integer part, truncating
toward zero.  Outside that range the rendering is exponential
(`d.ddd…e±k`), and `parseInt` stops at the `.` or `e`, returning the
signed mantissa integer part — the leading decimal digit of the value.
(`NaN`/`Infinity` have no `Rat` counterpart and are outside this model;
the shortest-round-trip mantissa of a double has the leading digit of its
exact value.) -/
def parseIntNum (q : Rat) : Int :=
  if q = 0 then 0
  else if ratAbs q < ratTenPowNeg6 then
    (if q < 0 then -1 else 1) * (leadingDigit q : Int)
  else if ratAbs q < ratTenPow21 then jsTrunc q
  else (if q < 0 then -1 else 1) * (leadingDigit q : Int)

/-- JS `parseInt` applied to a request-body value: `undefined` parses to
`NaN` (`none`); a number is parsed from its JS string rendering
(`parseIntNum`); a string is parsed from its sign-and-digits prefix (with
`0x` hexadecimal support) after leading whitespace. -/
def parseIntJS : JVal → Option Int
  | .undef => none
  | .num q => some (parseIntNum q)
  | .str s => parseIntChars (s.toList.dropWhile jsIsWhitespace)

/-! ## Database rows -/

/-- A row of the `events` table, joined (as in the tool queries) with its
`categories.name_ru` and `cities.name`; an event only findable by the
tools when those joins match, which the embedding folds into the row. -/
structure EventRow where
  id : Rat
  name : String
  price : Rat
  available_seats : Rat
  date : String
  time : String
  city_name : String
  category_name : String
  admin_id : Option Rat := none
  slug : String := ""
deriving DecidableEq, Repr

/-- A row of the `orders` table (the columns the modelled code touches).
`payment_status` is `Option` because the `/api/create-ticket-order` insert
omits that column. -/
structure OrderRow where
  id : Rat
  order_code : String
  event_id : Option Rat
  admin_id : Option Rat := none
  customer_name : String
  customer_phone : String
  customer_email : Option String := none
  telegram_chat_id : Option String := none
  telegram_username : Option String := none
  seats_count : Rat
  total_price : Rat
  status : String
  payment_status : Option String := none
deriving DecidableEq, Repr

/-- A row of the `refund_links` table (the columns the refund callback
touches). -/
structure RefundRow where
  refund_code : String
  status : String
  amount : Rat
  customer_name : String
  refund_number : Option String := none
  processed_at : Option Nat := none
deriving DecidableEq, Repr

/-- The database state the modelled operations read and write. -/
structure DB where
  events : List EventRow
  orders : List OrderRow
deriving DecidableEq, Repr

/-- `SELECT ... FROM events ... WHERE e.id = $1` (first matching row). -/
def findEvent (db : DB) (eid : Rat) : Option EventRow :=
  db.events.find? (fun e => e.id == eid)

/-- `SELECT ... FROM events ... WHERE e.slug = $1` (first matching row). -/
def findEventBySlug (db : DB) (slug : String) : Option EventRow :=
  db.events.find? (fun e => e.slug == slug)

/-- `UPDATE events SET available_seats = available_seats + $delta WHERE id = $eid`. -/
def updateEventSeats (db : DB) (eid : Rat) (delta : Rat) : DB :=
  { db with
    events := db.events.map (fun e =>
      if e.id == eid then { e with available_seats := e.available_seats + delta } else e) }

/-! ## SQL traces -/

/-- The key the `manageOrderTool` lookup query filters on
(`o.id = $1` when a truthy `orderId` was given, else `o.order_code = $1`). -/
inductive OrderKey where
  | byId (i : Rat)
  | byCode (c : String)
deriving DecidableEq, Repr

/-- One SQL command, as issued by the modelled operations.  Transaction
control commands (`BEGIN` / `COMMIT` / `ROLLBACK`) appear explicitly, so a
trace shows whether statements ran inside a transaction. -/
inductive Sql where
  | beginTx
  | commitTx
  | rollbackTx
  | selectEventForUpdate (eventId : Rat)
  | selectEventBySlug (slug : String)
  | selectOrderJoin (key : OrderKey)
  | selectPendingOrders
  | selectRefundLink (code : String)
  | insertOrder (row : OrderRow)
  | updateSeats (eventId : Rat) (delta : Rat)
  | setOrderStatus (orderId : Rat) (status : String) (paymentStatus : Option String)
  | updateRefundStatus (code : String) (status : String)
deriving DecidableEq, Repr

/-! ## `createOrderTool` (createOrderTool.ts) -/

/-- The tool input after zod parsing (`seatsCount` has `default(1)`, so the
handler body always sees a number). -/
structure CreateOrderInput where
  eventId : Rat
  customerName : String
  customerPhone : String
  customerEmail : Option String := none
  seatsCount : Rat := 1
  totalPrice : Option Rat := none
  telegramChatId : Option String := none
  telegramUsername : Option String := none
deriving DecidableEq, Repr

/-- The tool output (`outputSchema` of `createOrderTool`). -/
structure CreateOrderResult where
  success : Bool
  orderCode : Option String := none
  orderId : Option Rat := none
  eventName : Option String := none
  eventDate : Option String := none
  eventTime : Option String := none
  cityName : Option String := none
  customerName : Option String := none
  customerPhone : Option String := none
  customerEmail : Option String := none
  seatsCount : Option Rat := none
  totalPrice : Option Rat := none
  message : String
deriving DecidableEq, Repr

/-- Result of running a database-touching operation: the new database
state, the value returned to the caller, and the SQL trace issued. -/
structure CreateOrderRun where
  db : DB
  result : CreateOrderResult
  trace : List Sql
deriving DecidableEq, Repr

/-- `const seatsCount = context.seatsCount || 1` (0 is falsy in JS). -/
def effectiveSeats (s : Rat) : Rat :=
  if s = 0 then 1 else s

/-- `createOrderTool.execute`, inside `withTransaction`: `BEGIN`; a
single-row `SELECT ... FOR UPDATE` of the event; the availability check;
the `INSERT INTO orders` (with literal `'pending','pending'` statuses); the
seat decrement; `COMMIT`.  Early returns (event not found, not enough
seats) return normally from the callback, so `withTransaction` still
commits.  `orderCode` stands for the freshly generated random code and
`newId` for the serial `id` the `INSERT ... RETURNING id` produces. -/
def createOrder (db : DB) (ctx : CreateOrderInput) (orderCode : String) (newId : Rat) :
    CreateOrderRun :=
  match findEvent db ctx.eventId with
  | none =>
    { db := db
      result := { success := false, message := "Мероприятие не найдено" }
      trace := [Sql.beginTx, Sql.selectEventForUpdate ctx.eventId, Sql.commitTx] }
  | some event =>
    let seatsCount := effectiveSeats ctx.seatsCount
    if event.available_seats < seatsCount then
      { db := db
        result := { success := false
                    message := "Недостаточно мест. Доступно: " ++ toString event.available_seats }
        trace := [Sql.beginTx, Sql.selectEventForUpdate ctx.eventId, Sql.commitTx] }
    else
      let totalPrice := jsOrNum ctx.totalPrice (event.price * seatsCount)
      let row : OrderRow :=
        { id := newId
          order_code := orderCode
          event_id := some ctx.eventId
          customer_name := ctx.customerName
          customer_phone := ctx.customerPhone
          customer_email := ctx.customerEmail
          telegram_chat_id := ctx.telegramChatId
          telegram_username := ctx.telegramUsername
          seats_count := seatsCount
          total_price := totalPrice
          status := "pending"
          payment_status := some "pending" }
      { db := { updateEventSeats db ctx.eventId (-seatsCount) with
                  orders := db.orders ++ [row] }
        result := { success := true
                    orderCode := some orderCode
                    orderId := some newId
                    eventName := some event.name
                    eventDate := some event.date
                    eventTime := some event.time
                    cityName := some event.city_name
                    customerName := some ctx.customerName
                    customerPhone := some ctx.customerPhone
                    customerEmail := ctx.customerEmail
                    seatsCount := some seatsCount
                    totalPrice := some totalPrice
                    message := "Заказ " ++ orderCode ++ " успешно создан! Мероприятие: " ++
                      event.name ++ ", " ++ event.city_name ++ ". Сумма: " ++
                      toString totalPrice ++ " руб." }
        trace := [Sql.beginTx, Sql.selectEventForUpdate ctx.eventId,
                  Sql.insertOrder row, Sql.updateSeats ctx.eventId (-seatsCount),
                  Sql.commitTx] }

/-! ## `generateOrderCode` (createOrderTool.ts) -/

/-- The alphabet of `generateOrderCode`. -/
def orderCodeChars : String := "ABCDEFGHIJKLMNOPQRSTUVWXYZ0123456789"

/-- JS `String.prototype.charAt`: the one-character string at index `i`,
or `""` out of range. -/
def charAt (s : String) (i : Nat) : String :=
  match s.toList.get? i with
  | some c => String.mk [c]
  | none => ""

/-- `generateOrderCode`: eight draws of `Math.floor(Math.random() * 36)`
(each a uniform index below 36, passed here explicitly), appended one
`charAt` at a time to an initially empty code, under the literal prefix
`ORD-`. -/
def generateOrderCode (draws : Fin 8 → Fin 36) : String :=
  "ORD-" ++ (List.finRange 8).foldl
    (fun code i => code ++ charAt orderCodeChars (draws i).val) ""

/-! ## `manageOrderTool` (manageOrderTool.ts)

The tool issues its queries directly on the pool (`dbPool.query`), with no
`BEGIN`/`COMMIT` anywhere, so each statement runs as its own autocommit
transaction; the traces below therefore contain no transaction markers.
Only the regular-order lookup (orders joined with `events` on
`o.event_id`) is modelled; the fallback query for generated-link orders
(joined with `event_templates`) concerns a different order family and no
claim here. -/

/-- The tool input after zod parsing. -/
structure ManageOrderInput where
  action : String
  orderCode : Option String := none
  orderId : Option Rat := none
deriving DecidableEq, Repr

/-- The `order` object `manageOrderTool` assembles from the joined row
(presentational fields `createdAt` and `tickets` omitted). -/
structure ManagedOrder where
  id : Rat
  orderCode : String
  eventName : String
  categoryName : String
  cityName : String
  eventDate : String
  eventTime : String
  customerName : String
  customerPhone : String
  customerEmail : Option String
  telegramUsername : Option String
  seatsCount : Rat
  totalPrice : Rat
  status : String
  paymentStatus : Option String
deriving DecidableEq, Repr

/-- The tool output (the fields of `outputSchema` the claims touch;
the `orders` list of `list_pending` is summarised by its length in the
message). -/
structure ManageOrderResult where
  success : Bool
  order : Option ManagedOrder := none
  message : String
deriving DecidableEq, Repr

/-- Result of a `manageOrderTool.execute` run. -/
structure ManageOrderRun where
  db : DB
  result : ManageOrderResult
  trace : List Sql
deriving DecidableEq, Repr

/-- JS truthiness filter on an optional number (`0` counts as absent). -/
def truthyNum (v : Option Rat) : Option Rat :=
  match v with
  | none => none
  | some q => if q = 0 then none else some q

/-- JS truthiness filter on an optional string (`""` counts as absent). -/
def truthyStr (v : Option String) : Option String :=
  match v with
  | none => none
  | some s => if s = "" then none else some s

/-- Does an order row satisfy the lookup `WHERE` clause? -/
def rowMatchesKey (o : OrderRow) (key : OrderKey) : Bool :=
  match key with
  | .byId i => o.id == i
  | .byCode c => o.order_code == c

/-- The `manageOrderTool` lookup: orders joined with `events` (and, folded
into `EventRow`, `categories` and `cities`), filtered by the key; the code
reads `rows[0]`. -/
def findOrderJoin (db : DB) (key : OrderKey) : Option (OrderRow × EventRow) :=
  (db.orders.filterMap (fun o =>
    if rowMatchesKey o key then
      match o.event_id with
      | some eid =>
        match findEvent db eid with
        | some e => some (o, e)
        | none => none
      | none => none
    else none)).head?

/-- `UPDATE orders SET payment_status = $pay, status = $st ... WHERE id = $oid`. -/
def setOrderStatusPay (db : DB) (oid : Rat) (st pay : String) : DB :=
  { db with
    orders := db.orders.map (fun o =>
      if o.id == oid then { o with status := st, payment_status := some pay } else o) }

/-- `UPDATE orders SET status = $st ... WHERE id = $oid` (payment status
untouched). -/
def setOrderStatusOnly (db : DB) (oid : Rat) (st : String) : DB :=
  { db with
    orders := db.orders.map (fun o =>
      if o.id == oid then { o with status := st } else o) }

/-- The lookup key: `o.id = $1` when `context.orderId` is truthy, else
`o.order_code = $1` with `whereValue = context.orderId || context.orderCode`
(reached only when one of the two is truthy). -/
def manageKey (ctx : ManageOrderInput) : OrderKey :=
  match truthyNum ctx.orderId with
  | some i => OrderKey.byId i
  | none => OrderKey.byCode (ctx.orderCode.getD "")

/-- `${context.orderCode || context.orderId}` as displayed in messages. -/
def keyDisplay (ctx : ManageOrderInput) : String :=
  match truthyStr ctx.orderCode with
  | some c => c
  | none => toString (ctx.orderId.getD 0)

/-- `manageOrderTool.execute`.  Every query goes straight to the pool:
no transaction is opened on any path. -/
def manageOrder (db : DB) (ctx : ManageOrderInput) : ManageOrderRun :=
  if ctx.action = "list_pending" then
    let n := min (db.orders.filter (fun o => o.payment_status == some "pending")).length 20
    { db := db
      result := { success := true
                  message := "Найдено " ++ toString n ++ " заказов, ожидающих подтверждения" }
      trace := [Sql.selectPendingOrders] }
  else if truthyStr ctx.orderCode = none ∧ truthyNum ctx.orderId = none then
    { db := db
      result := { success := false
                  message := "Код заказа или ID заказа обязателен для этого действия" }
      trace := [] }
  else
    let key := manageKey ctx
    match findOrderJoin db key with
    | none =>
      { db := db
        result := { success := false
                    message := "Заказ " ++ keyDisplay ctx ++ " не найден" }
        trace := [Sql.selectOrderJoin key] }
    | some (row, event) =>
      let order : ManagedOrder :=
        { id := row.id
          orderCode := row.order_code
          eventName := event.name
          categoryName := event.category_name
          cityName := event.city_name
          eventDate := event.date
          eventTime := event.time
          customerName := row.customer_name
          customerPhone := row.customer_phone
          customerEmail := row.customer_email
          telegramUsername := row.telegram_username
          seatsCount := row.seats_count
          totalPrice := row.total_price
          status := row.status
          paymentStatus := row.payment_status }
      if ctx.action = "get" then
        { db := db
          result := { success := true, order := some order
                      message := "Заказ " ++ order.orderCode ++ " найден" }
          trace := [Sql.selectOrderJoin key] }
      else if ctx.action = "confirm_payment" then
        { db := setOrderStatusPay db row.id "confirmed" "confirmed"
          result := { success := true
                      order := some { order with
                                      status := "confirmed",
                                      paymentStatus := some "confirmed" }
                      message := "✅ Оплата заказа " ++ order.orderCode ++
                        " подтверждена! Клиент: " ++ order.customerName ++
                        ", Сумма: " ++ toString order.totalPrice ++ " руб." }
          trace := [Sql.selectOrderJoin key,
                    Sql.setOrderStatus row.id "confirmed" (some "confirmed")] }
      else if ctx.action = "reject_payment" then
        let db1 := setOrderStatusPay db row.id "rejected" "rejected"
        let db2 := updateEventSeats db1 (row.event_id.getD 0) row.seats_count
        { db := db2
          result := { success := true
                      order := some { order with
                                      status := "rejected",
                                      paymentStatus := some "rejected" }
                      message := "❌ Оплата заказа " ++ order.orderCode ++
                        " отклонена. Места возвращены в продажу." }
          trace := [Sql.selectOrderJoin key,
                    Sql.setOrderStatus row.id "rejected" (some "rejected"),
                    Sql.updateSeats (row.event_id.getD 0) row.seats_count] }
      else if ctx.action = "cancel" then
        let db1 := setOrderStatusOnly db row.id "cancelled"
        let restore := row.payment_status ≠ some "rejected"
        let db2 := if restore then updateEventSeats db1 (row.event_id.getD 0) row.seats_count
                   else db1
        { db := db2
          result := { success := true
                      order := some { order with status := "cancelled" }
                      message := "Заказ " ++ order.orderCode ++ " отменён" }
          trace := [Sql.selectOrderJoin key, Sql.setOrderStatus row.id "cancelled" none] ++
            (if restore then [Sql.updateSeats (row.event_id.getD 0) row.seats_count] else []) }
      else
        { db := db
          result := { success := false, message := "Неизвестное действие" }
          trace := [Sql.selectOrderJoin key] }

/-! ## `/api/create-ticket-order` (server file)

The handler opens a plain pool and issues each statement directly: no
`BEGIN`/`COMMIT`, and its event `SELECT` carries no `FOR UPDATE`. -/

/-- The request body of `/api/create-ticket-order` (used fields). -/
structure TicketOrderBody where
  eventSlug : String
  customerName : String
  customerPhone : String
  customerEmail : Option String := none
  seatsCount : Rat
deriving DecidableEq, Repr

/-- The JSON body `/api/create-ticket-order` responds with. -/
structure TicketOrderResp where
  success : Bool
  orderCode : Option String := none
  message : Option String := none
deriving DecidableEq, Repr

/-- Result of a `/api/create-ticket-order` run. -/
structure TicketOrderRun where
  db : DB
  resp : TicketOrderResp
  trace : List Sql
deriving DecidableEq, Repr

/-- The `/api/create-ticket-order` handler: `SELECT` the event by slug,
check availability, `INSERT` the order (columns without `payment_status`,
with literal status `'pending'`), decrement seats — all as separate
autocommit statements.  `orderCode` stands for the generated
`TK...` code and `newId` for the serial id. -/
def createTicketOrder (db : DB) (body : TicketOrderBody) (orderCode : String)
    (newId : Rat) : TicketOrderRun :=
  match findEventBySlug db body.eventSlug with
  | none =>
    { db := db
      resp := { success := false, message := some "Мероприятие не найдено" }
      trace := [Sql.selectEventBySlug body.eventSlug] }
  | some event =>
    if event.available_seats < body.seatsCount then
      { db := db
        resp := { success := false, message := some "Недостаточно мест" }
        trace := [Sql.selectEventBySlug body.eventSlug] }
    else
      let totalPrice := event.price * body.seatsCount
      let row : OrderRow :=
        { id := newId
          order_code := orderCode
          event_id := some event.id
          admin_id := event.admin_id
          customer_name := body.customerName
          customer_phone := body.customerPhone
          customer_email := body.customerEmail
          seats_count := body.seatsCount
          total_price := totalPrice
          status := "pending"
          payment_status := none }
      { db := { updateEventSeats db event.id (-body.seatsCount) with
                  orders := db.orders ++ [row] }
        resp := { success := true, orderCode := some orderCode }
        trace := [Sql.selectEventBySlug body.eventSlug, Sql.insertOrder row,
                  Sql.updateSeats event.id (-body.seatsCount)] }

/-! ## Telegram notification functions (server file) -/

/-- The environment the Telegram helpers read:
`BOT_TOKEN = TELEGRAM_BOT_TOKEN || TELEGRAM_GROUP_BOT_TOKEN`,
`ADMIN_CHAT_ID = ADMIN_TELEGRAM_ID || TELEGRAM_ADMIN_CHAT_ID`,
`GROUP_ID = TELEGRAM_GROUP_ID`.  An env var that is unset or empty is
`none` after the `||` chains (empty strings are falsy). -/
structure TelegramEnv where
  botToken : Option String := none
  adminChatId : Option String := none
  groupId : Option String := none
deriving DecidableEq, Repr

/-- `getBot()` yields a bot exactly when `BOT_TOKEN` is truthy. -/
def botAvailable (env : TelegramEnv) : Bool :=
  (truthyStr env.botToken).isSome

/-- `sendChannelNotification`: returns `false` when the bot is not
initialized or no target chat (`GROUP_ID || ADMIN_CHAT_ID`) is configured;
otherwise attempts the send, catching any failure and returning `false`
for it (`sendOk` is the outcome of the Telegram API call).  It never
throws: every path returns a `Bool`. -/
def sendChannelNotification (env : TelegramEnv) (sendOk : Bool) : Bool :=
  if ¬botAvailable env then false
  else
    match jsOrStr (truthyStr env.groupId) (truthyStr env.adminChatId) with
    | none => false
    | some _ => sendOk

/-- `sendOrderNotificationToAdmin`: `false` when the bot is not
initialized or `ADMIN_CHAT_ID` is not configured; otherwise the caught
outcome of the send.  It never throws. -/
def sendOrderNotificationToAdmin (env : TelegramEnv) (sendOk : Bool) : Bool :=
  if ¬botAvailable env then false
  else
    match truthyStr env.adminChatId with
    | none => false
    | some _ => sendOk

/-! ## `/api/create-order` handler (server file) -/

/-- The request body of `/api/create-order`, with the fields the handler
validates kept as raw JS values (`customerEmail` reaches the handler only
as an optional string on the modelled paths). -/
structure CreateOrderBody where
  eventId : JVal
  customerName : JVal
  customerPhone : JVal
  customerEmail : Option String := none
  seatsCount : JVal
  totalPrice : JVal := .undef
deriving DecidableEq, Repr

/-- The JSON response of `/api/create-order`: on a validation failure a
`{ success: false, message }` body with HTTP status 400; otherwise the
tool result as the body with HTTP status 200. -/
structure ApiResponse where
  status : Nat
  success : Bool
  message : String
  result : Option CreateOrderResult := none
deriving DecidableEq, Repr

/-- Input validation of `/api/create-order`, in source order; `none` means
validation passed. -/
def validateCreateOrder (body : CreateOrderBody) : Option ApiResponse :=
  let eventIdOk :=
    match body.eventId with
    | .num q => q != 0
    | _ => false
  if !eventIdOk then
    some { status := 400, success := false, message := "Не указано мероприятие" }
  else
    let nameOk :=
      match body.customerName with
      | .str s => s != "" && ¬(utf16Len (jsTrim s) < 2)
      | _ => false
    if !nameOk then
      some { status := 400, success := false, message := "Укажите ваше имя" }
    else
      let phoneOk :=
        match body.customerPhone with
        | .str s => s != "" && ¬(utf16Len (jsTrim s) < 5)
        | _ => false
      if !phoneOk then
        some { status := 400, success := false, message := "Укажите номер телефона" }
      else
        match parseIntJS body.seatsCount with
        | none =>
          some { status := 400, success := false
                 message := "Количество мест должно быть от 1 до 10" }
        | some n =>
          if n < 1 ∨ 10 < n then
            some { status := 400, success := false
                   message := "Количество мест должно быть от 1 до 10" }
          else none

/-- The bodies `/api/create-order` accepts: a truthy numeric `eventId`, a
truthy string `customerName` of trimmed UTF-16 length at least 2, a truthy
string `customerPhone` of trimmed UTF-16 length at least 5, and a
`seatsCount` whose `parseInt` value exists and lies between 1 and 10.
(Stated for the validation characterization; the validator itself is
`validateCreateOrder` above.) -/
def goodBody (body : CreateOrderBody) : Prop :=
  (∃ q, body.eventId = .num q ∧ q ≠ 0) ∧
  (∃ s, body.customerName = .str s ∧ s ≠ "" ∧ 2 ≤ utf16Len (jsTrim s)) ∧
  (∃ s, body.customerPhone = .str s ∧ s ≠ "" ∧ 5 ≤ utf16Len (jsTrim s)) ∧
  (∃ n, parseIntJS body.seatsCount = some n ∧ 1 ≤ n ∧ n ≤ 10)

/-- The string payload of a `JVal` (used after a `typeof === "string"`
check has succeeded). -/
def JVal.strVal : JVal → String
  | .str s => s
  | _ => ""

/-- The numeric payload of a `JVal` (used after a `typeof === "number"`
check has succeeded). -/
def JVal.numVal : JVal → Rat
  | .num q => q
  | _ => 0

/-- `body.totalPrice ? parseInt(body.totalPrice) : undefined`, with a
`NaN` parse behaving like `undefined` downstream (both are falsy at the
tool's `context.totalPrice || ...`). -/
def totalPriceArg (v : JVal) : Option Rat :=
  if v.truthy then (parseIntJS v).map (fun n => mkRat n 1) else none

/-- Result of an `/api/create-order` run: the response, the database
state after it, and the notification attempts' results (unused by the
response). -/
structure HandlerRun where
  db : DB
  resp : ApiResponse
  notified : List Bool
deriving DecidableEq, Repr

/-- The `/api/create-order` handler: validation (each failure answered
with status 400 before any database work), then `createOrderTool.execute`,
then — only for a successful order with truthy id and code — the channel
and admin notifications, whose outcomes (`chOk`, `adOk`) are caught and
never affect the JSON response built from the tool result. -/
def handleCreateOrder (db : DB) (body : CreateOrderBody) (orderCode : String)
    (newId : Rat) (env : TelegramEnv) (chOk adOk : Bool) : HandlerRun :=
  match validateCreateOrder body with
  | some err => { db := db, resp := err, notified := [] }
  | none =>
    let ctx : CreateOrderInput :=
      { eventId := body.eventId.numVal
        customerName := jsTrim body.customerName.strVal
        customerPhone := jsTrim body.customerPhone.strVal
        customerEmail := jsOrStr (body.customerEmail.map jsTrim) none
        seatsCount := mkRat ((parseIntJS body.seatsCount).getD 0) 1
        totalPrice := totalPriceArg body.totalPrice }
    let run := createOrder db ctx orderCode newId
    let doNotify := run.result.success &&
      (truthyNum run.result.orderId).isSome && (truthyStr run.result.orderCode).isSome
    { db := run.db
      resp := { status := 200
                success := run.result.success
                message := run.result.message
                result := some run.result }
      notified :=
        if doNotify then
          [sendChannelNotification env chOk, sendOrderNotificationToAdmin env adOk]
        else [] }

/-! ## Admin session tokens (server file) -/

/-- 24 hours in milliseconds. -/
def DAY_MS : Nat := 24 * 60 * 60 * 1000

/-- The in-memory `adminSessionTokens` map, token ↦ expiry timestamp
(milliseconds).  Keys are unique: `set` replaces. -/
abbrev AdminSessions := List (String × Nat)

/-- JS `Map.prototype.get`. -/
def mapGet (m : AdminSessions) (k : String) : Option Nat :=
  match m.find? (fun kv => kv.1 == k) with
  | some kv => some kv.2
  | none => none

/-- JS `Map.prototype.set`: replace the (unique) entry in place if the key
is present, append at the end otherwise. -/
def mapSet : AdminSessions → String → Nat → AdminSessions
  | [], k, v => [(k, v)]
  | kv :: rest, k, v =>
    if kv.1 == k then (k, v) :: rest else kv :: mapSet rest k v

/-- JS `Map.prototype.delete`. -/
def mapDelete (m : AdminSessions) (k : String) : AdminSessions :=
  m.filter (fun kv => kv.1 != k)

/-- `generateAdminToken` at time `now`, with the freshly drawn random
`token` passed explicitly: stores `now + 24h` as the token's expiry and
returns the token. -/
def generateAdminToken (m : AdminSessions) (token : String) (now : Nat) :
    String × AdminSessions :=
  (token, mapSet m token (now + DAY_MS))

/-- `isValidAdminToken` at time `now`: a missing (or falsy, i.e. zero)
expiry rejects; `now > expiry` deletes the entry and rejects; otherwise
the token is accepted.  Returns the verdict and the (possibly pruned)
session map. -/
def isValidAdminToken (m : AdminSessions) (token : String) (now : Nat) :
    Bool × AdminSessions :=
  match mapGet m token with
  | none => (false, m)
  | some expiry =>
    if expiry = 0 then (false, m)
    else if now > expiry then (false, mapDelete m token)
    else (true, m)

/-- The session map produced by a sequence of `generateAdminToken` calls
(token drawn, time of the call), starting from the empty map. -/
def buildSessions (gens : List (String × Nat)) : AdminSessions :=
  gens.foldl (fun m g => (generateAdminToken m g.1 g.2).2) []

/-- The time of the most recent generation of `token` in a list of
generation events. -/
def lastGenTime : List (String × Nat) → String → Option Nat
  | [], _ => none
  | g :: rest, token =>
    match lastGenTime rest token with
    | some ts => some ts
    | none => if g.1 == token then some g.2 else none

/-! ## Telegram refund callback (server file) -/

/-- An outward action of the refund-callback handler. -/
inductive BotAction where
  | answerCallback (callbackId : String) (text : String)
  | refundApprovedNotice (code : String)
  | refundRejectedNotice (code : String)
  | editMessage (code : String) (newStatus : String)
deriving DecidableEq, Repr

/-- `SELECT * FROM refund_links WHERE refund_code = $1` (first row). -/
def findRefund (rows : List RefundRow) (code : String) : Option RefundRow :=
  rows.find? (fun r => r.refund_code == code)

/-- The refund branch of the `/webhooks/telegram/action` callback handler,
for callback data `refund_<action>_<code>`: look the link up; answer
"not found" if absent; if its status is already `approved` or `rejected`,
only answer with the already-processed notice (no `UPDATE` is issued);
otherwise set the new status and `processed_at`, send the channel notice,
answer the query, and edit the original message. -/
def handleRefundCallback (rows : List RefundRow) (refundAction : String)
    (refundCode : String) (callbackId : String) (now : Nat) :
    List RefundRow × List BotAction × List Sql :=
  match findRefund rows refundCode with
  | none =>
    (rows, [BotAction.answerCallback callbackId "❌ Ссылка не найдена"],
     [Sql.selectRefundLink refundCode])
  | some refund =>
    if refund.status = "approved" ∨ refund.status = "rejected" then
      (rows,
       [BotAction.answerCallback callbackId
         ("ℹ️ Уже обработано: " ++
           (if refund.status = "approved" then "одобрен" else "отклонён"))],
       [Sql.selectRefundLink refundCode])
    else
      let newStatus := if refundAction = "approve" then "approved" else "rejected"
      let rows' := rows.map (fun r =>
        if r.refund_code == refundCode then
          { r with status := newStatus, processed_at := some now }
        else r)
      (rows',
       (if refundAction = "approve" then
          [BotAction.refundApprovedNotice refundCode,
           BotAction.answerCallback callbackId "✅ Возврат одобрен"]
        else
          [BotAction.refundRejectedNotice refundCode,
           BotAction.answerCallback callbackId "❌ Возврат отклонён"]) ++
       [BotAction.editMessage refundCode newStatus],
       [Sql.selectRefundLink refundCode, Sql.updateRefundStatus refundCode newStatus])

/-! ## Concurrency model of the `createOrderTool` transaction

Two clients concurrently run the transaction body of
`createOrderTool.execute` against the same event row.  Each client's
atomic steps mirror the statements issued inside `withTransaction`:

1. `SELECT ... FOR UPDATE` — takes the row lock (blocking while the other
   client holds it) and reads `available_seats`;
2. the availability check on the snapshot just read; on failure the
   callback returns, the transaction commits and the lock is released;
3. `INSERT INTO orders`;
4. `UPDATE events SET available_seats = available_seats - n`;
5. `COMMIT` — releases the lock.

Seat counts are integers here (the integral case the booking endpoints
produce).  A schedule is a list of client choices; a blocked client's
step leaves the state unchanged. -/

/-- Where a client is in the transaction body (`snap` is the
`available_seats` value its `SELECT ... FOR UPDATE` returned). -/
inductive Phase where
  | start
  | locked (snap : Int)
  | inserted (snap : Int)
  | decremented
  | doneOk
  | doneFail
deriving DecidableEq, Repr

/-- Shared state of the two concurrent bookings: the event's
`available_seats`, the holder of its row lock, and each client's phase. -/
structure Conc where
  seats : Int
  lock : Option Bool
  a : Phase
  b : Phase
deriving DecidableEq, Repr

/-- One atomic step of client `who` (`false` = A booking `cA` seats,
`true` = B booking `cB`), as described above. -/
def stepClient (cA cB : Int) (who : Bool) (s : Conc) : Conc :=
  match who with
  | false =>
    match s.a with
    | .start =>
      if s.lock = none then { s with lock := some false, a := .locked s.seats } else s
    | .locked snap =>
      if snap < cA then { s with a := .doneFail, lock := none }
      else { s with a := .inserted snap }
    | .inserted _ => { s with seats := s.seats - cA, a := .decremented }
    | .decremented => { s with a := .doneOk, lock := none }
    | .doneOk => s
    | .doneFail => s
  | true =>
    match s.b with
    | .start =>
      if s.lock = none then { s with lock := some true, b := .locked s.seats } else s
    | .locked snap =>
      if snap < cB then { s with b := .doneFail, lock := none }
      else { s with b := .inserted snap }
    | .inserted _ => { s with seats := s.seats - cB, b := .decremented }
    | .decremented => { s with b := .doneOk, lock := none }
    | .doneOk => s
    | .doneFail => s

/-- Run a schedule of interleaved client steps. -/
def runConc (cA cB : Int) (sched : List Bool) (s : Conc) : Conc :=
  sched.foldl (fun s w => stepClient cA cB w s) s

/-- Both clients about to start, nobody holding the lock. -/
def initConc (s0 : Int) : Conc :=
  { seats := s0, lock := none, a := .start, b := .start }

/-- Does a phase hold the row lock (between `SELECT ... FOR UPDATE` and
`COMMIT`)? -/
def holdsLock : Phase → Bool
  | .locked _ => true
  | .inserted _ => true
  | .decremented => true
  | _ => false

/-- The seats a client's finished decrement has taken. -/
def contrib (c : Int) : Phase → Int
  | .decremented => c
  | .doneOk => c
  | _ => 0


/-- The constraint a client's snapshot must satisfy while it holds the
lock: current (no one can change the row under the lock), and sufficient
once the availability check has been passed. -/
def snapOk (c seats : Int) : Phase → Prop
  | .locked snap => snap = seats
  | .inserted snap => snap = seats ∧ c ≤ snap
  | _ => True

/-- Inductive invariant of the two-client run: seats never negative,
seat accounting exact, the lock protects the critical section, and each
client's snapshot is faithful while it holds the lock. -/
def ConcInv (s0 cA cB : Int) (s : Conc) : Prop :=
  0 ≤ s.seats ∧
  s.seats = s0 - contrib cA s.a - contrib cB s.b ∧
  (holdsLock s.a = true → s.lock = some false) ∧
  (holdsLock s.b = true → s.lock = some true) ∧
  snapOk cA s.seats s.a ∧
  snapOk cB s.seats s.b

/-! ## Concrete fixtures (used by witnesses and counterexamples) -/

/-- A sample event row with five available seats. -/
def evA : EventRow :=
  { id := 1, name := "Концерт", price := 100, available_seats := 5,
    date := "2025-01-01", time := "19:00:00", city_name := "Москва",
    category_name := "Концерты", admin_id := some 7, slug := "concert" }

/-- A sample pending order of two seats on `evA`. -/
def ordA : OrderRow :=
  { id := 11, order_code := "ORD-AAAA1111", event_id := some 1,
    customer_name := "Иван Иванов", customer_phone := "+79990001122",
    seats_count := 2, total_price := 200, status := "pending",
    payment_status := some "pending" }

/-- A sample database. -/
def dbA : DB := { events := [evA], orders := [ordA] }

/-- A sample tool input booking two seats on `evA`. -/
def ctxA : CreateOrderInput :=
  { eventId := 1, customerName := "Пётр Петров", customerPhone := "+79991112233",
    seatsCount := 2 }

/-- A `manageOrderTool` input rejecting the payment of `ordA`. -/
def rejectCtx : ManageOrderInput :=
  { action := "reject_payment", orderCode := some "ORD-AAAA1111" }

/-- A request body whose `seatsCount` is the non-integer `2.7`. -/
def body27 : CreateOrderBody :=
  { eventId := .num 1, customerName := .str "Иван Иванов",
    customerPhone := .str "+79990001122", seatsCount := .num (mkRat 27 10) }

/-- A sample `/api/create-ticket-order` body booking two seats on `evA`. -/
def tbodyA : TicketOrderBody :=
  { eventSlug := "concert", customerName := "Олег Олегов",
    customerPhone := "+79993334455", seatsCount := 2 }

/-- A request body whose `seatsCount` is the hex string `"0x5"`. -/
def bodyHex : CreateOrderBody :=
  { eventId := .num 1, customerName := .str "Иван Иванов",
    customerPhone := .str "+79990001122", seatsCount := .str "0x5" }

/-- A request body with no `eventId` at all. -/
def bodyBad : CreateOrderBody :=
  { eventId := .undef, customerName := .str "Иван Иванов",
    customerPhone := .str "+79990001122", seatsCount := .num 2 }

/-- The 400 response the validator produces for a missing event id. -/
def errBad : ApiResponse :=
  { status := 400, success := false, message := "Не указано мероприятие" }

/-- A refund link already approved. -/
def rfdA : RefundRow :=
  { refund_code := "RFD-ABC123", status := "approved", amount := 500,
    customer_name := "Иван Иванов", refund_number := some "1234" }

/-! ## Helper lemmas: the two-client lock invariant -/

/-- A client outside the critical section satisfies any snapshot
constraint. -/
theorem snapOk_of_not_held (c y : Int) (p : Phase) (h : holdsLock p = false) :
    snapOk c y p := by
  cases p <;> simp_all [holdsLock, snapOk]

/-- One interleaved step preserves the lock invariant. -/
theorem conc_step_preserves (s0 cA cB : Int) (w : Bool) (s : Conc)
    (h : ConcInv s0 cA cB s) : ConcInv s0 cA cB (stepClient cA cB w s) := by
  obtain ⟨seats, lock, a, b⟩ := s
  obtain ⟨h1, h2, h3, h4, h5, h6⟩ := h
  dsimp only at h1 h2 h3 h4 h5 h6
  cases w with
  | false =>
    cases a with
    | start =>
      dsimp only [stepClient]
      split_ifs with hl
      · unfold ConcInv
        dsimp only
        refine ⟨h1, ?_, fun _ => rfl, ?_, ?_, h6⟩
        · simp only [contrib] at h2 ⊢; omega
        · intro hb
          have h4' := h4 hb
          rw [hl] at h4'
          cases h4'
        · exact rfl
      · exact ⟨h1, h2, h3, h4, h5, h6⟩
    | locked snap =>
      have hsnap : snap = seats := h5
      have hlf : lock = some false := h3 rfl
      dsimp only [stepClient]
      split_ifs with hc
      · unfold ConcInv
        dsimp only
        refine ⟨h1, ?_, ?_, ?_, trivial, h6⟩
        · simp only [contrib] at h2 ⊢; omega
        · intro hx; simp [holdsLock] at hx
        · intro hb
          have h4' := h4 hb
          rw [hlf] at h4'
          cases h4'
      · unfold ConcInv
        dsimp only
        refine ⟨h1, ?_, fun _ => hlf, h4, ⟨hsnap, by omega⟩, h6⟩
        simp only [contrib] at h2 ⊢; omega
    | inserted snap =>
      obtain ⟨hs1, hs2⟩ : snap = seats ∧ cA ≤ snap := h5
      have hlf : lock = some false := h3 rfl
      have hbnc : holdsLock b = false := by
        cases hbb : holdsLock b
        · rfl
        · have h4' := h4 hbb
          rw [hlf] at h4'
          cases h4'
      dsimp only [stepClient]
      unfold ConcInv
      dsimp only
      refine ⟨by omega, ?_, fun _ => hlf, ?_, trivial, snapOk_of_not_held _ _ _ hbnc⟩
      · simp only [contrib] at h2 ⊢; omega
      · intro hb; rw [hbnc] at hb; cases hb
    | decremented =>
      have hlf : lock = some false := h3 rfl
      have hbnc : holdsLock b = false := by
        cases hbb : holdsLock b
        · rfl
        · have h4' := h4 hbb
          rw [hlf] at h4'
          cases h4'
      dsimp only [stepClient]
      unfold ConcInv
      dsimp only
      refine ⟨h1, ?_, ?_, ?_, trivial, snapOk_of_not_held _ _ _ hbnc⟩
      · simp only [contrib] at h2 ⊢; omega
      · intro hx; simp [holdsLock] at hx
      · intro hb; rw [hbnc] at hb; cases hb
    | doneOk => exact ⟨h1, h2, h3, h4, h5, h6⟩
    | doneFail => exact ⟨h1, h2, h3, h4, h5, h6⟩
  | true =>
    cases b with
    | start =>
      dsimp only [stepClient]
      split_ifs with hl
      · unfold ConcInv
        dsimp only
        refine ⟨h1, ?_, ?_, fun _ => rfl, h5, ?_⟩
        · simp only [contrib] at h2 ⊢; omega
        · intro ha
          have h3' := h3 ha
          rw [hl] at h3'
          cases h3'
        · exact rfl
      · exact ⟨h1, h2, h3, h4, h5, h6⟩
    | locked snap =>
      have hsnap : snap = seats := h6
      have hlt : lock = some true := h4 rfl
      dsimp only [stepClient]
      split_ifs with hc
      · unfold ConcInv
        dsimp only
        refine ⟨h1, ?_, ?_, ?_, h5, trivial⟩
        · simp only [contrib] at h2 ⊢; omega
        · intro ha
          have h3' := h3 ha
          rw [hlt] at h3'
          cases h3'
        · intro hx; simp [holdsLock] at hx
      · unfold ConcInv
        dsimp only
        refine ⟨h1, ?_, h3, fun _ => hlt, h5, ⟨hsnap, by omega⟩⟩
        simp only [contrib] at h2 ⊢; omega
    | inserted snap =>
      obtain ⟨hs1, hs2⟩ : snap = seats ∧ cB ≤ snap := h6
      have hlt : lock = some true := h4 rfl
      have hanc : holdsLock a = false := by
        cases haa : holdsLock a
        · rfl
        · have h3' := h3 haa
          rw [hlt] at h3'
          cases h3'
      dsimp only [stepClient]
      unfold ConcInv
      dsimp only
      refine ⟨by omega, ?_, ?_, fun _ => hlt, snapOk_of_not_held _ _ _ hanc, trivial⟩
      · simp only [contrib] at h2 ⊢; omega
      · intro ha; rw [hanc] at ha; cases ha
    | decremented =>
      have hlt : lock = some true := h4 rfl
      have hanc : holdsLock a = false := by
        cases haa : holdsLock a
        · rfl
        · have h3' := h3 haa
          rw [hlt] at h3'
          cases h3'
      dsimp only [stepClient]
      unfold ConcInv
      dsimp only
      refine ⟨h1, ?_, ?_, ?_, snapOk_of_not_held _ _ _ hanc, trivial⟩
      · simp only [contrib] at h2 ⊢; omega
      · intro ha; rw [hanc] at ha; cases ha
      · intro hx; simp [holdsLock] at hx
    | doneOk => exact ⟨h1, h2, h3, h4, h5, h6⟩
    | doneFail => exact ⟨h1, h2, h3, h4, h5, h6⟩

/-- Any schedule preserves the lock invariant. -/
theorem conc_run_preserves (s0 cA cB : Int) (sched : List Bool) (s : Conc)
    (h : ConcInv s0 cA cB s) : ConcInv s0 cA cB (runConc cA cB sched s) := by
  induction sched generalizing s with
  | nil => exact h
  | cons w rest ih => exact ih _ (conc_step_preserves s0 cA cB w s h)

/-- The initial state satisfies the invariant when seats start
nonnegative. -/
theorem conc_init_inv (s0 cA cB : Int) (h : 0 ≤ s0) :
    ConcInv s0 cA cB (initConc s0) := by
  exact ⟨h, by simp [initConc, contrib], by simp [initConc, holdsLock],
    by simp [initConc, holdsLock], trivial, trivial⟩

/-! ## Helper lemmas: strings and order codes -/

/-- `toList` distributes over string append. -/
theorem toList_append (a b : String) : (a ++ b).toList = a.toList ++ b.toList := rfl

/-- A string's length is the length of its character list. -/
theorem length_toList (s : String) : s.length = s.toList.length := rfl

/-- Each draw yields one character, and that character is from the
alphabet. -/
theorem charAt_code_spec (d : Fin 36) :
    (charAt orderCodeChars d.val).toList.length = 1 ∧
    ∀ c ∈ (charAt orderCodeChars d.val).toList, c ∈ orderCodeChars.toList := by
  revert d; decide

/-- The code-building fold appends one alphabet character per draw. -/
theorem fold_code_spec (ds : List (Fin 36)) (acc : String) :
    ((ds.foldl (fun code d => code ++ charAt orderCodeChars d.val) acc)).toList.length
        = acc.toList.length + ds.length ∧
    ∀ c ∈ (ds.foldl (fun code d => code ++ charAt orderCodeChars d.val) acc).toList,
        c ∈ acc.toList ∨ c ∈ orderCodeChars.toList := by
  induction ds generalizing acc with
  | nil => exact ⟨by simp, fun c hc => Or.inl hc⟩
  | cons d rest ih =>
    simp only [List.foldl_cons]
    obtain ⟨ihl, ihm⟩ := ih (acc ++ charAt orderCodeChars d.val)
    obtain ⟨cl, cm⟩ := charAt_code_spec d
    constructor
    · rw [ihl, toList_append, List.length_append, cl]
      simp [List.length_cons]
      omega
    · intro c hc
      rcases ihm c hc with hacc | hchars
      · rw [toList_append, List.mem_append] at hacc
        rcases hacc with h | h
        · exact Or.inl h
        · exact Or.inr (cm c h)
      · exact Or.inr hchars

/-! ## Helper lemmas: event lookup after a seat update -/

/-- `find?` by id commutes with an id-preserving conditional map. -/
theorem find_id_preserving_map (l : List EventRow) (p : Rat) (f : EventRow → EventRow)
    (hf : ∀ e, (f e).id = e.id) :
    (l.map (fun e => if e.id == p then f e else e)).find? (fun e => e.id == p)
      = (l.find? (fun e => e.id == p)).map f := by
  induction l with
  | nil => rfl
  | cons e rest ih =>
    rw [List.map_cons]
    cases hb : e.id == p with
    | true =>
      have h1 : (if (true = true) then f e else e) = f e := if_pos rfl
      rw [h1, List.find?_cons, List.find?_cons]
      rw [hf e, hb]
      rfl
    | false =>
      have h1 : (if (false = true) then f e else e) = e := if_neg (by simp)
      rw [h1, List.find?_cons, List.find?_cons]
      rw [hb]
      exact ih

/-- Reading an event back after `UPDATE events SET available_seats = ...`. -/
theorem findEvent_update (db : DB) (eid δ : Rat) :
    findEvent (updateEventSeats db eid δ) eid
      = (findEvent db eid).map
          (fun e => { e with available_seats := e.available_seats + δ }) := by
  unfold findEvent updateEventSeats
  exact find_id_preserving_map db.events eid _ (fun e => rfl)

/-- What a successful `manageOrderTool` lookup guarantees: the row matches
the key, carries an event id, and that event is in the database. -/
theorem findOrderJoin_spec (db : DB) (key : OrderKey) (row : OrderRow) (ev : EventRow)
    (h : findOrderJoin db key = some (row, ev)) :
    rowMatchesKey row key = true ∧
    ∃ eid, row.event_id = some eid ∧ findEvent db eid = some ev := by
  unfold findOrderJoin at h
  revert h
  generalize db.orders = l
  intro h
  induction l with
  | nil => simp [List.filterMap_nil] at h
  | cons o rest ih =>
    rw [List.filterMap_cons] at h
    by_cases hm : rowMatchesKey o key
    · rw [if_pos hm] at h
      cases heid : o.event_id with
      | none => rw [heid] at h; exact ih h
      | some eid =>
        rw [heid] at h
        dsimp only at h
        cases hev : findEvent db eid with
        | none => rw [hev] at h; exact ih h
        | some e =>
          rw [hev] at h
          simp only [List.head?_cons, Option.some.injEq, Prod.mk.injEq] at h
          obtain ⟨hrow, hevv⟩ := h
          subst hrow; subst hevv
          exact ⟨hm, eid, heid, hev⟩
    · rw [if_neg hm] at h
      exact ih h

/-! ## Helper lemmas: the admin session map -/

/-- Lookup after JS `Map.set`. -/
theorem mapGet_set (m : AdminSessions) (k : String) (v : Nat) (k' : String) :
    mapGet (mapSet m k v) k' = if k' = k then some v else mapGet m k' := by
  induction m with
  | nil =>
    by_cases h : k' = k
    · subst h; simp [mapSet, mapGet, List.find?_cons]
    · have hkk : (k == k') = false := by
        simpa using fun hc : k = k' => h hc.symm
      simp [mapSet, mapGet, List.find?_cons, hkk, h]
  | cons kv rest ih =>
    unfold mapSet
    by_cases hk : (kv.1 == k) = true
    · rw [if_pos hk]
      have hkv1 : kv.1 = k := by simpa using hk
      by_cases h : k' = k
      · subst h
        simp [mapGet, List.find?_cons]
      · have h1 : ((k, v).1 == k') = false := by
          simpa using fun hc : k = k' => h hc.symm
        have h2 : (kv.1 == k') = false := by
          rw [hkv1]
          simpa using fun hc : k = k' => h hc.symm
        simp [mapGet, List.find?_cons, h1, h2, h]
    · rw [if_neg hk]
      by_cases hkv : (kv.1 == k') = true
      · have hkv1 : kv.1 = k' := by simpa using hkv
        have hne : ¬(k' = k) := by
          intro hck
          exact hk (by rw [hkv1, hck]; simp)
        simp [mapGet, List.find?_cons, hkv, hne]
      · have hh : mapGet (kv :: mapSet rest k v) k' = mapGet (mapSet rest k v) k' := by
          simp [mapGet, List.find?_cons, hkv]
        have hh2 : mapGet (kv :: rest) k' = mapGet rest k' := by
          simp [mapGet, List.find?_cons, hkv]
        rw [hh, ih, hh2]

/-- Folding generation events over any starting map. -/
theorem mapGet_build_aux (gens : List (String × Nat)) (m0 : AdminSessions)
    (tok : String) :
    mapGet (gens.foldl (fun m g => (generateAdminToken m g.1 g.2).2) m0) tok
      = match lastGenTime gens tok with
        | some ts => some (ts + DAY_MS)
        | none => mapGet m0 tok := by
  induction gens generalizing m0 with
  | nil => rfl
  | cons g rest ih =>
    rw [List.foldl_cons, ih]
    cases hl : lastGenTime rest tok with
    | some ts =>
      have hcons : lastGenTime (g :: rest) tok = some ts := by
        simp only [lastGenTime, hl]
      rw [hcons]
    | none =>
      have hcons : lastGenTime (g :: rest) tok
          = (if g.1 == tok then some g.2 else none) := by
        simp only [lastGenTime, hl]
      rw [hcons]
      unfold generateAdminToken
      dsimp only
      rw [mapGet_set]
      by_cases h : (g.1 == tok) = true
      · have h1 : tok = g.1 := by
          have := (beq_iff_eq.mp h)
          exact this.symm
        rw [if_pos h1, if_pos h]
      · have h1 : ¬(tok = g.1) := by
          simpa using fun hc : tok = g.1 => h (by rw [hc]; simp)
        rw [if_neg h1, if_neg h]

/-- A token's stored expiry is `24h` past its most recent generation. -/
theorem mapGet_build (gens : List (String × Nat)) (tok : String) :
    mapGet (buildSessions gens) tok = (lastGenTime gens tok).map (· + DAY_MS) := by
  unfold buildSessions
  rw [mapGet_build_aux]
  cases hl : lastGenTime gens tok with
  | some ts => rfl
  | none => rfl

/-- Lookup after JS `Map.delete`. -/
theorem mapGet_delete (m : AdminSessions) (k : String) :
    mapGet (mapDelete m k) k = none := by
  induction m with
  | nil => rfl
  | cons kv rest ih =>
    unfold mapDelete at ih ⊢
    rw [List.filter_cons]
    by_cases h : (kv.1 == k) = true
    · have hb : (kv.1 != k) = false := by simp [bne, h]
      rw [hb]
      simpa using ih
    · have hb : (kv.1 != k) = true := by simp [bne, h]
      rw [hb]
      simp only [if_pos]
      unfold mapGet at ih ⊢
      rw [List.find?_cons]
      rw [show (kv.1 == k) = false from by simpa using h]
      exact ih

/-! ## Helper lemmas: the create-order route -/

/-- Every response the validator rejects with is a 400 failure body. -/
theorem validate_err_shape (body : CreateOrderBody) (err : ApiResponse)
    (hv : validateCreateOrder body = some err) :
    err.status = 400 ∧ err.success = false := by
  unfold validateCreateOrder at hv
  dsimp only at hv
  split_ifs at hv
  any_goals (injection hv with he; subst he; exact ⟨rfl, rfl⟩)
  cases hp : parseIntJS body.seatsCount <;> rw [hp] at hv <;> dsimp only at hv
  · injection hv with he; subst he; exact ⟨rfl, rfl⟩
  · split_ifs at hv
    any_goals (injection hv with he; subst he; exact ⟨rfl, rfl⟩)

/-- The bodies the validator passes are exactly the good bodies. -/
theorem validate_none_iff (body : CreateOrderBody) :
    validateCreateOrder body = none ↔ goodBody body := by
  obtain ⟨eid, cname, cphone, cemail, scount, tprice⟩ := body
  unfold validateCreateOrder goodBody
  dsimp only
  cases hp : parseIntJS scount <;>
    cases eid <;> cases cname <;> cases cphone <;>
      split_ifs <;>
        simp_all [JVal.truthy] <;>
          intros <;> try omega
  all_goals simp_all
  all_goals omega

/-- The in-transaction trace of `createOrderTool`: the `FOR UPDATE` lock
select is the first statement after `BEGIN`, and the insert and seat
decrement happen only on the success path, after the lock and before
`COMMIT`. -/
theorem createOrder_trace_shape (db : DB) (ctx : CreateOrderInput)
    (code : String) (nid : Rat) :
    (createOrder db ctx code nid).trace.take 2
        = [Sql.beginTx, Sql.selectEventForUpdate ctx.eventId] ∧
    ((createOrder db ctx code nid).trace
        = [Sql.beginTx, Sql.selectEventForUpdate ctx.eventId, Sql.commitTx] ∨
     ∃ row, (createOrder db ctx code nid).trace
        = [Sql.beginTx, Sql.selectEventForUpdate ctx.eventId, Sql.insertOrder row,
           Sql.updateSeats ctx.eventId (-(effectiveSeats ctx.seatsCount)), Sql.commitTx]) := by
  unfold createOrder
  split
  · exact ⟨rfl, Or.inl rfl⟩
  · dsimp only
    split_ifs with hseats
    · exact ⟨rfl, Or.inl rfl⟩
    · exact ⟨rfl, Or.inr ⟨_, rfl⟩⟩

/-! ## Claim theorems -/

/-- C1 (counterexample): rejecting the payment of the sample order issues
the order-status update and the seat-restoring `UPDATE events` with no
`BEGIN`, `COMMIT` or `ROLLBACK` anywhere in the trace — the seat
restoration does not run inside a database transaction, so the claim that
all four seat-mutating operations are transaction-wrapped is false. -/
theorem C1_counterexample :
    Sql.setOrderStatus 11 "rejected" (some "rejected") ∈ (manageOrder dbA rejectCtx).trace ∧
    Sql.updateSeats 1 2 ∈ (manageOrder dbA rejectCtx).trace ∧
    Sql.beginTx ∉ (manageOrder dbA rejectCtx).trace ∧
    Sql.commitTx ∉ (manageOrder dbA rejectCtx).trace ∧
    Sql.rollbackTx ∉ (manageOrder dbA rejectCtx).trace := by
  decide

/-- C1 (amended): of the order-lifecycle operations that mutate seat
inventory, only the `createOrderTool` order creation runs inside a single
database transaction (its whole trace is `BEGIN … COMMIT` with no nested
transaction markers); the `manageOrderTool` payment-rejection and
cancellation seat restorations and the `/api/create-ticket-order` insert
plus decrement issue their statements as separate autocommit queries, with
no transaction around them. -/
theorem C1_amended_transactions :
    (∀ db ctx code nid, ∃ body,
      (createOrder db ctx code nid).trace = Sql.beginTx :: body ++ [Sql.commitTx] ∧
      Sql.beginTx ∉ body ∧ Sql.commitTx ∉ body ∧ Sql.rollbackTx ∉ body) ∧
    (∀ db ctx, ctx.action = "reject_payment" ∨ ctx.action = "cancel" →
      Sql.beginTx ∉ (manageOrder db ctx).trace ∧
      Sql.commitTx ∉ (manageOrder db ctx).trace) ∧
    (∀ db body code nid,
      Sql.beginTx ∉ (createTicketOrder db body code nid).trace ∧
      Sql.commitTx ∉ (createTicketOrder db body code nid).trace) := by
  refine ⟨?_, ?_, ?_⟩
  · intro db ctx code nid
    unfold createOrder
    split
    · exact ⟨[Sql.selectEventForUpdate ctx.eventId], rfl, by simp, by simp, by simp⟩
    · dsimp only
      split_ifs with hseats
      · exact ⟨[Sql.selectEventForUpdate ctx.eventId], rfl, by simp, by simp, by simp⟩
      · exact ⟨[Sql.selectEventForUpdate ctx.eventId, Sql.insertOrder _,
          Sql.updateSeats ctx.eventId _], rfl, by simp, by simp, by simp⟩
  · intro db ctx hact
    rcases hact with hact | hact
    · unfold manageOrder
      rw [hact]
      rw [if_neg (by decide)]
      by_cases hmiss : (truthyStr ctx.orderCode = none ∧ truthyNum ctx.orderId = none)
      · rw [if_pos hmiss]; simp
      · rw [if_neg hmiss]
        dsimp only
        cases hfind : findOrderJoin db (manageKey ctx) with
        | none => simp
        | some pr =>
          obtain ⟨row, event⟩ := pr
          dsimp only
          rw [if_neg (by decide), if_neg (by decide), if_pos rfl]
          simp
    · unfold manageOrder
      rw [hact]
      rw [if_neg (by decide)]
      by_cases hmiss : (truthyStr ctx.orderCode = none ∧ truthyNum ctx.orderId = none)
      · rw [if_pos hmiss]; simp
      · rw [if_neg hmiss]
        dsimp only
        cases hfind : findOrderJoin db (manageKey ctx) with
        | none => simp
        | some pr =>
          obtain ⟨row, event⟩ := pr
          dsimp only
          rw [if_neg (by decide), if_neg (by decide), if_neg (by decide), if_pos rfl]
          split_ifs with hres <;> simp
  · intro db body code nid
    unfold createTicketOrder
    split
    · simp
    · dsimp only
      split_ifs with hseats
      · simp
      · simp

/-- C1 (witness): the amended statement applied to concrete inputs — a
transaction-wrapped trace for a sample `createOrderTool` run, and traces
without transaction markers for a sample rejection and a sample
`/api/create-ticket-order` run. -/
theorem C1_amended_transactions_witness :
    (∃ body, (createOrder dbA ctxA "ORD-TEST0001" 12).trace
        = Sql.beginTx :: body ++ [Sql.commitTx] ∧
      Sql.beginTx ∉ body ∧ Sql.commitTx ∉ body ∧ Sql.rollbackTx ∉ body) ∧
    (Sql.beginTx ∉ (manageOrder dbA rejectCtx).trace ∧
      Sql.commitTx ∉ (manageOrder dbA rejectCtx).trace) ∧
    (Sql.beginTx ∉ (createTicketOrder dbA tbodyA "TK1ABCDEF" 13).trace ∧
      Sql.commitTx ∉ (createTicketOrder dbA tbodyA "TK1ABCDEF" 13).trace) :=
  ⟨C1_amended_transactions.1 dbA ctxA "ORD-TEST0001" 12,
   C1_amended_transactions.2.1 dbA rejectCtx (Or.inl rfl),
   C1_amended_transactions.2.2 dbA tbodyA "TK1ABCDEF" 13⟩

/-- C2: inside the `createOrderTool` transaction, the event row is locked
by the single-row `SELECT … FOR UPDATE` as the first statement after
`BEGIN`, before the availability check and the `available_seats` decrement
(which occur only in the success-shaped trace, between the lock and
`COMMIT`); and in the two-client lock model of that transaction body, no
interleaving lets both bookings pass the availability check when the
seats on hand cannot cover both — concurrent orders cannot both book the
same seats. -/
theorem C2_for_update_serializes :
    (∀ db ctx code nid,
      (createOrder db ctx code nid).trace.take 2
          = [Sql.beginTx, Sql.selectEventForUpdate ctx.eventId] ∧
      ((createOrder db ctx code nid).trace
          = [Sql.beginTx, Sql.selectEventForUpdate ctx.eventId, Sql.commitTx] ∨
       ∃ row, (createOrder db ctx code nid).trace
          = [Sql.beginTx, Sql.selectEventForUpdate ctx.eventId, Sql.insertOrder row,
             Sql.updateSeats ctx.eventId (-(effectiveSeats ctx.seatsCount)),
             Sql.commitTx])) ∧
    (∀ (s0 cA cB : Int) (sched : List Bool), 0 ≤ s0 → s0 < cA + cB →
      ¬((runConc cA cB sched (initConc s0)).a = Phase.doneOk ∧
        (runConc cA cB sched (initConc s0)).b = Phase.doneOk)) := by
  constructor
  · exact createOrder_trace_shape
  · intro s0 cA cB sched h0 hlt
    rintro ⟨hA, hB⟩
    have hinv := conc_run_preserves s0 cA cB sched _ (conc_init_inv s0 cA cB h0)
    obtain ⟨h1, h2, -, -, -, -⟩ := hinv
    rw [hA, hB] at h2
    simp only [contrib] at h2
    omega

/-- C2 (witness): the serialization part applied to one concrete schedule —
one seat left and two one-seat bookings, client A running to completion
and then client B: they cannot both finish successfully. -/
theorem C2_for_update_serializes_witness :
    ¬((runConc 1 1 [false, false, false, false, true, true]
        (initConc 1)).a = Phase.doneOk ∧
      (runConc 1 1 [false, false, false, false, true, true]
        (initConc 1)).b = Phase.doneOk) :=
  C2_for_update_serializes.2 1 1 1 [false, false, false, false, true, true]
    (by decide) (by decide)

/-- C3: every order `createOrderTool` successfully creates is appended to
the orders table with `status = 'pending'` and `payment_status = 'pending'`
— the lifecycle starts in the pending state. -/
theorem C3_new_orders_pending (db : DB) (ctx : CreateOrderInput) (code : String)
    (nid : Rat) (h : (createOrder db ctx code nid).result.success = true) :
    ∃ row, (createOrder db ctx code nid).db.orders = db.orders ++ [row] ∧
      row.status = "pending" ∧ row.payment_status = some "pending" := by
  unfold createOrder at *
  revert h
  split
  · intro h; exact absurd h (by simp)
  · dsimp only
    split_ifs with hseats
    · intro h; exact absurd h (by simp)
    · intro _; exact ⟨_, rfl, rfl, rfl⟩

/-- C3 (witness): the sample booking succeeds and its inserted row is
pending. -/
theorem C3_new_orders_pending_witness :
    (createOrder dbA ctxA "ORD-TEST0001" 12).result.success = true ∧
    ∃ row, (createOrder dbA ctxA "ORD-TEST0001" 12).db.orders = dbA.orders ++ [row] ∧
      row.status = "pending" ∧ row.payment_status = some "pending" :=
  ⟨by decide, C3_new_orders_pending dbA ctxA "ORD-TEST0001" 12 (by decide)⟩

/-- C4: when the event exists but has fewer available seats than the
requested `seatsCount`, `createOrderTool` fails with the message reporting
the available count, and the database — orders and `available_seats` —
is left untouched. -/
theorem C4_insufficient_seats_rejected (db : DB) (ctx : CreateOrderInput)
    (code : String) (nid : Rat) (ev : EventRow)
    (hfind : findEvent db ctx.eventId = some ev)
    (hlt : ev.available_seats < ctx.seatsCount) :
    (createOrder db ctx code nid).result.success = false ∧
    (createOrder db ctx code nid).result.message
        = "Недостаточно мест. Доступно: " ++ toString ev.available_seats ∧
    (createOrder db ctx code nid).db = db := by
  have heff : ev.available_seats < effectiveSeats ctx.seatsCount := by
    unfold effectiveSeats
    split_ifs with h0
    · rw [h0] at hlt; linarith
    · exact hlt
  unfold createOrder
  rw [hfind]
  dsimp only
  rw [if_pos heff]
  exact ⟨rfl, rfl, rfl⟩

/-- C4 (witness): requesting nine seats of the five-seat sample event is
rejected with the available count and leaves the database unchanged. -/
theorem C4_insufficient_seats_rejected_witness :
    findEvent dbA (1 : Rat) = some evA ∧
    evA.available_seats < (9 : Rat) ∧
    (createOrder dbA { ctxA with seatsCount := 9 } "ORD-TEST0002" 12).result.success
        = false ∧
    (createOrder dbA { ctxA with seatsCount := 9 } "ORD-TEST0002" 12).db = dbA :=
  ⟨by decide, by decide,
   (C4_insufficient_seats_rejected dbA { ctxA with seatsCount := 9 } "ORD-TEST0002" 12
      evA (by decide) (by decide)).1,
   (C4_insufficient_seats_rejected dbA { ctxA with seatsCount := 9 } "ORD-TEST0002" 12
      evA (by decide) (by decide)).2.2⟩

/-- C5: notification failures never affect an order's HTTP result.  The
channel and admin senders return `false` — rather than throwing — when the
bot is unconfigured, when no target chat is configured, or when the
Telegram send itself fails; and the `/api/create-order` response and
database effect are identical whatever the notification environment and
send outcomes are. -/
theorem C5_notification_failures_swallowed :
    (∀ env ok, botAvailable env = false → sendChannelNotification env ok = false) ∧
    (∀ env ok, jsOrStr (truthyStr env.groupId) (truthyStr env.adminChatId) = none →
      sendChannelNotification env ok = false) ∧
    (∀ env, sendChannelNotification env false = false) ∧
    (∀ env ok, botAvailable env = false → sendOrderNotificationToAdmin env ok = false) ∧
    (∀ env ok, truthyStr env.adminChatId = none →
      sendOrderNotificationToAdmin env ok = false) ∧
    (∀ env, sendOrderNotificationToAdmin env false = false) ∧
    (∀ db body code nid env env' o1 o2 o1' o2',
      (handleCreateOrder db body code nid env o1 o2).resp
          = (handleCreateOrder db body code nid env' o1' o2').resp ∧
      (handleCreateOrder db body code nid env o1 o2).db
          = (handleCreateOrder db body code nid env' o1' o2').db) := by
  refine ⟨?_, ?_, ?_, ?_, ?_, ?_, ?_⟩
  · intro env ok h
    simp [sendChannelNotification, h]
  · intro env ok h
    unfold sendChannelNotification
    rw [h]
    split_ifs <;> rfl
  · intro env
    unfold sendChannelNotification
    split_ifs with h <;>
      first
      | rfl
      | cases jsOrStr (truthyStr env.groupId) (truthyStr env.adminChatId) <;> rfl
  · intro env ok h
    simp [sendOrderNotificationToAdmin, h]
  · intro env ok h
    unfold sendOrderNotificationToAdmin
    rw [h]
    split_ifs <;> rfl
  · intro env
    unfold sendOrderNotificationToAdmin
    split_ifs with h <;>
      first
      | rfl
      | cases truthyStr env.adminChatId <;> rfl
  · intro db body code nid env env' o1 o2 o1' o2'
    unfold handleCreateOrder
    cases h : validateCreateOrder body <;> exact ⟨rfl, rfl⟩

/-- C5 (witness): with the bot entirely unconfigured both senders return
`false`, and a sample request gets the same response whether every send
succeeds or every send fails. -/
theorem C5_notification_failures_swallowed_witness :
    sendChannelNotification { botToken := none } true = false ∧
    sendOrderNotificationToAdmin { botToken := none } true = false ∧
    (handleCreateOrder dbA body27 "ORD-TEST0003" 12
        { botToken := some "T", adminChatId := some "A", groupId := some "G" }
        true true).resp
      = (handleCreateOrder dbA body27 "ORD-TEST0003" 12 { botToken := none }
        false false).resp :=
  ⟨C5_notification_failures_swallowed.1 { botToken := none } true rfl,
   C5_notification_failures_swallowed.2.2.2.1 { botToken := none } true rfl,
   (C5_notification_failures_swallowed.2.2.2.2.2.2 dbA body27 "ORD-TEST0003" 12
      { botToken := some "T", adminChatId := some "A", groupId := some "G" }
      { botToken := none } true true false false).1⟩

/-- C6 (counterexample): two bodies whose `seatsCount` is "not an integer
between 1 and 10" — the non-integer number `2.7` and the string `"0x5"` —
which the claim therefore says must be rejected with HTTP 400, both pass
validation, because the handler checks `parseInt(body.seatsCount)` and
`parseInt` truncates `2.7` to `2` and reads `"0x5"` as hexadecimal `5`:
each request succeeds with status 200 and an order row is inserted. -/
theorem C6_counterexample :
    body27.seatsCount = JVal.num (mkRat 27 10) ∧
    (mkRat 27 10).den ≠ 1 ∧
    (handleCreateOrder dbA body27 "ORD-TEST0003" 12 { botToken := none }
        true true).resp.status = 200 ∧
    (handleCreateOrder dbA body27 "ORD-TEST0003" 12 { botToken := none }
        true true).resp.success = true ∧
    (handleCreateOrder dbA body27 "ORD-TEST0003" 12 { botToken := none }
        true true).db.orders.length = dbA.orders.length + 1 ∧
    bodyHex.seatsCount = JVal.str "0x5" ∧
    parseIntJS bodyHex.seatsCount = some 5 ∧
    (handleCreateOrder dbA bodyHex "ORD-TEST0005" 12 { botToken := none }
        true true).resp.status = 200 ∧
    (handleCreateOrder dbA bodyHex "ORD-TEST0005" 12 { botToken := none }
        true true).resp.success = true ∧
    (handleCreateOrder dbA bodyHex "ORD-TEST0005" 12 { botToken := none }
        true true).db.orders.length = dbA.orders.length + 1 := by
  decide

/-- C6 (amended): every body the handler's validation rejects is answered
with a `success = false` JSON body and HTTP 400 before any database work
(no order is created, nothing is sent); and the validator passes exactly
the bodies with a truthy numeric `eventId`, a truthy string `customerName`
of trimmed UTF-16 length ≥ 2, a truthy string `customerPhone` of trimmed
UTF-16 length ≥ 5, and a `seatsCount` whose `parseInt` value — radix 10 or
`0x`-prefixed radix 16 on strings, and applied to the JS rendering of
numbers — exists and lies in 1..10.  So a `seatsCount` that is not an
integer between 1 and 10 (such as `2.7` or `"0x5"`) is nevertheless
accepted whenever its `parseInt` value lies in that range, unlike what the
original claim says. -/
theorem C6_amended_validation :
    (∀ body err, validateCreateOrder body = some err →
      err.status = 400 ∧ err.success = false) ∧
    (∀ db body code nid env o1 o2 err, validateCreateOrder body = some err →
      (handleCreateOrder db body code nid env o1 o2).resp = err ∧
      (handleCreateOrder db body code nid env o1 o2).db = db ∧
      (handleCreateOrder db body code nid env o1 o2).notified = []) ∧
    (∀ body, validateCreateOrder body = none ↔ goodBody body) := by
  refine ⟨validate_err_shape, ?_, validate_none_iff⟩
  intro db body code nid env o1 o2 err hv
  unfold handleCreateOrder
  rw [hv]
  exact ⟨rfl, rfl, rfl⟩

/-- C6 (witness): the amended statement applied to the concrete body with
no `eventId`: the validator rejects it with the 400 error body and the
handler returns exactly that with the database untouched. -/
theorem C6_amended_validation_witness :
    validateCreateOrder bodyBad = some errBad ∧
    errBad.status = 400 ∧ errBad.success = false ∧
    (handleCreateOrder dbA bodyBad "ORD-TEST0004" 12 { botToken := none }
        true true).resp = errBad ∧
    (handleCreateOrder dbA bodyBad "ORD-TEST0004" 12 { botToken := none }
        true true).db = dbA :=
  ⟨by decide,
   (C6_amended_validation.1 bodyBad errBad (by decide)).1,
   (C6_amended_validation.1 bodyBad errBad (by decide)).2,
   (C6_amended_validation.2.1 dbA bodyBad "ORD-TEST0004" 12 { botToken := none }
      true true errBad (by decide)).1,
   (C6_amended_validation.2.1 dbA bodyBad "ORD-TEST0004" 12 { botToken := none }
      true true errBad (by decide)).2.1⟩

/-- C7: for an existing order found with its event, the `reject_payment`
action marks the order row `status = 'rejected'` and
`payment_status = 'rejected'`, adds the order's `seats_count` back to the
event's `available_seats`, and returns an order object showing the
rejected statuses. -/
theorem C7_reject_payment_restores_seats (db : DB) (ctx : ManageOrderInput)
    (row : OrderRow) (ev : EventRow) (eid : Rat)
    (ha : ctx.action = "reject_payment")
    (hkey : ¬(truthyStr ctx.orderCode = none ∧ truthyNum ctx.orderId = none))
    (hfind : findOrderJoin db (manageKey ctx) = some (row, ev))
    (heid : row.event_id = some eid) :
    (manageOrder db ctx).result.success = true ∧
    (∃ mo, (manageOrder db ctx).result.order = some mo ∧
      mo.status = "rejected" ∧ mo.paymentStatus = some "rejected" ∧
      mo.orderCode = row.order_code) ∧
    (manageOrder db ctx).db.orders = db.orders.map (fun o =>
      if o.id == row.id
      then { o with status := "rejected", payment_status := some "rejected" }
      else o) ∧
    findEvent (manageOrder db ctx).db eid
      = some { ev with available_seats := ev.available_seats + row.seats_count } := by
  have hspec := findOrderJoin_spec db (manageKey ctx) row ev hfind
  obtain ⟨hmk, eid', heid', hfev⟩ := hspec
  rw [heid] at heid'
  injection heid' with heq
  subst heq
  unfold manageOrder
  rw [ha]
  rw [if_neg (by decide)]
  rw [if_neg hkey]
  dsimp only
  rw [hfind]
  dsimp only
  rw [if_neg (by decide), if_neg (by decide), if_pos rfl]
  refine ⟨rfl, ⟨_, rfl, rfl, rfl, rfl⟩, rfl, ?_⟩
  have hev_pres : findEvent (setOrderStatusPay db row.id "rejected" "rejected") eid
      = findEvent db eid := rfl
  rw [heid]
  dsimp only [Option.getD]
  rw [findEvent_update, hev_pres, hfev]
  rfl

/-- C7 (witness): rejecting the sample two-seat pending order succeeds,
returns a rejected order object, and restores the event from five to
seven available seats. -/
theorem C7_reject_payment_restores_seats_witness :
    findOrderJoin dbA (manageKey rejectCtx) = some (ordA, evA) ∧
    (manageOrder dbA rejectCtx).result.success = true ∧
    findEvent (manageOrder dbA rejectCtx).db 1
      = some { evA with available_seats := evA.available_seats + ordA.seats_count } :=
  ⟨by decide,
   (C7_reject_payment_restores_seats dbA rejectCtx ordA evA 1 rfl (by decide)
      (by decide) rfl).1,
   (C7_reject_payment_restores_seats dbA rejectCtx ordA evA 1 rfl (by decide)
      (by decide) rfl).2.2.2⟩

/-- C8: `generateOrderCode` always returns a 12-character string: the
literal prefix `ORD-` followed by exactly eight characters drawn from the
uppercase letters and digits of its alphabet. -/
theorem C8_order_code_format (draws : Fin 8 → Fin 36) :
    (generateOrderCode draws).length = 12 ∧
    (generateOrderCode draws).toList.take 4 = "ORD-".toList ∧
    ∀ c ∈ (generateOrderCode draws).toList.drop 4, c ∈ orderCodeChars.toList := by
  have hfold :
      (List.finRange 8).foldl (fun code i => code ++ charAt orderCodeChars (draws i).val) ""
        = ((List.finRange 8).map draws).foldl
            (fun code d => code ++ charAt orderCodeChars d.val) "" := by
    rw [List.foldl_map]
  obtain ⟨hl, hm⟩ := fold_code_spec ((List.finRange 8).map draws) ""
  unfold generateOrderCode
  rw [hfold]
  set rest := ((List.finRange 8).map draws).foldl
      (fun code d => code ++ charAt orderCodeChars d.val) "" with hrest
  have hlen : rest.toList.length = 8 := by
    rw [hl]; simp
  refine ⟨?_, ?_, ?_⟩
  · rw [length_toList, toList_append, List.length_append, hlen]
    rfl
  · rw [toList_append]
    rw [List.take_append_of_le_length (by simp)]
    simp
  · intro c hc
    rw [toList_append] at hc
    have h4 : ("ORD-".toList).length = 4 := rfl
    rw [← h4, List.drop_left] at hc
    rcases hm c hc with h | h
    · simp at h
    · exact h

/-- C9 (counterexample): a token generated at time 0 is still accepted at
time `DAY_MS` — exactly 24 hours after creation, when *fewer than* 24
hours have *not* elapsed — because the code rejects only when
`now > expiry`.  The claim's "fewer than 24 hours" boundary is off by one
instant. -/
theorem C9_counterexample :
    (isValidAdminToken (buildSessions [("tok", 0)]) "tok" DAY_MS).1 = true ∧
    ¬(DAY_MS - 0 < DAY_MS) := by
  constructor
  · decide
  · simp

/-- C9 (amended): a token is accepted exactly when it was previously
produced by `generateAdminToken` and *at most* 24 hours have elapsed since
its most recent creation (`now ≤ created + 24h`); and a stored token whose
expiry has passed (`now > expiry`) is rejected and removed from the
session map, so an expired token is never accepted. -/
theorem C9_amended_token_validity :
    (∀ gens tok now,
      (isValidAdminToken (buildSessions gens) tok now).1 = true ↔
        ∃ ts, lastGenTime gens tok = some ts ∧ now ≤ ts + DAY_MS) ∧
    (∀ gens tok now e,
      mapGet (buildSessions gens) tok = some e → now > e →
      (isValidAdminToken (buildSessions gens) tok now).1 = false ∧
      mapGet ((isValidAdminToken (buildSessions gens) tok now).2) tok = none) := by
  constructor
  · intro gens tok now
    unfold isValidAdminToken
    rw [mapGet_build]
    cases hl : lastGenTime gens tok with
    | none => simp
    | some ts =>
      simp only [Option.map_some']
      have hne : ¬(ts + DAY_MS = 0) := by unfold DAY_MS; omega
      rw [if_neg hne]
      by_cases hgt : now > ts + DAY_MS
      · rw [if_pos hgt]
        constructor
        · intro hfa; exact absurd hfa (by simp)
        · rintro ⟨ts', hts', hle⟩
          injection hts' with he
          subst he
          exact absurd hle (by omega)
      · rw [if_neg hgt]
        exact ⟨fun _ => ⟨ts, rfl, by omega⟩, fun _ => rfl⟩
  · intro gens tok now e hget hgt
    rw [mapGet_build] at hget
    cases hl : lastGenTime gens tok with
    | none => rw [hl] at hget; cases hget
    | some ts =>
      rw [hl] at hget
      simp only [Option.map_some'] at hget
      injection hget with he
      unfold isValidAdminToken
      rw [mapGet_build, hl]
      simp only [Option.map_some']
      rw [if_neg (by unfold DAY_MS; omega)]
      rw [if_pos (by omega)]
      exact ⟨rfl, mapGet_delete _ _⟩

/-- C9 (witness): one millisecond past the 24-hour expiry, the token
generated at time 0 is rejected and its entry is removed from the map. -/
theorem C9_amended_token_validity_witness :
    mapGet (buildSessions [("tok", 0)]) "tok" = some DAY_MS ∧
    (isValidAdminToken (buildSessions [("tok", 0)]) "tok" (DAY_MS + 1)).1 = false ∧
    mapGet ((isValidAdminToken (buildSessions [("tok", 0)]) "tok" (DAY_MS + 1)).2)
        "tok" = none :=
  ⟨by decide,
   (C9_amended_token_validity.2 [("tok", 0)] "tok" (DAY_MS + 1) DAY_MS (by decide)
      (by omega)).1,
   (C9_amended_token_validity.2 [("tok", 0)] "tok" (DAY_MS + 1) DAY_MS (by decide)
      (by omega)).2⟩

/-- C10: when a refund link's status is already `approved` or `rejected`,
a further `refund_approve`/`refund_reject` callback leaves the
`refund_links` rows untouched, issues no `UPDATE`, and only answers the
callback query with the already-processed notice. -/
theorem C10_refund_callback_idempotent (rows : List RefundRow)
    (refundAction refundCode cbId : String) (now : Nat) (refund : RefundRow)
    (hfind : findRefund rows refundCode = some refund)
    (hterm : refund.status = "approved" ∨ refund.status = "rejected") :
    handleRefundCallback rows refundAction refundCode cbId now
      = (rows,
         [BotAction.answerCallback cbId
           ("ℹ️ Уже обработано: " ++
             (if refund.status = "approved" then "одобрен" else "отклонён"))],
         [Sql.selectRefundLink refundCode]) := by
  unfold handleRefundCallback
  rw [hfind]
  dsimp only
  rw [if_pos hterm]

/-- C10 (witness): re-approving the already-approved sample refund link
changes nothing and only answers the callback. -/
theorem C10_refund_callback_idempotent_witness :
    findRefund [rfdA] "RFD-ABC123" = some rfdA ∧
    handleRefundCallback [rfdA] "approve" "RFD-ABC123" "cb1" 0
      = ([rfdA],
         [BotAction.answerCallback "cb1" ("ℹ️ Уже обработано: " ++
            (if rfdA.status = "approved" then "одобрен" else "отклонён"))],
         [Sql.selectRefundLink "RFD-ABC123"]) :=
  ⟨by decide,
   C10_refund_callback_idempotent [rfdA] "approve" "RFD-ABC123" "cb1" 0 rfdA
     (by decide) (Or.inl rfl)⟩
